import Mathlib

/-!
Verification of the news-proxy core of BrevityBackend.

The definitions below are a shallow embedding of the retry-capable news
controller (the canonical variant per the spec): the axios client
configuration, the retry loop `makeNewsRequest`, the User-Agent rotation
`getUserAgent`, the failure classification `isCloudflareError` /
`getErrorMessage`, and the two HTTP handlers `getTrendingNews` and
`searchNews`.

Modelling conventions:
- An upstream HTTP interaction is abstracted as a function
  `Nat → AttemptOutcome α` giving, for each attempt number (1-based),
  either a success payload or an axios-style error.
- JS falsiness of strings / numbers is modelled explicitly
  (`jsOrStr`, empty string and 0 are falsy).
- `response.data` being a string is modelled as `bodyStr : Option String`
  (`none` = the body is not a string, e.g. parsed JSON).
- The `for` loop of `makeNewsRequest` is modelled by structural recursion
  on a fuel argument initialised to `retries + 1`; the loop guard
  `attempt ≤ retries` is kept literally, so the fuel-exhaustion branch is
  unreachable and returns the same value as normal loop exit (the JS
  function returning `undefined`, modelled as `Except.ok none`).
- The run result records, besides the returned value or thrown error, the
  list of outbound requests made (with the User-Agent header each one
  carried) and the list of backoff waits (in ms) performed, so that call
  counts, header rotation and backoff schedule are observable.
-/

namespace Brevity

/-- needle-is-a-leading-segment test on character lists. -/
def leadMatch : List Char → List Char → Bool
  | _, [] => true
  | [], _ :: _ => false
  | c :: cs, d :: ds => c == d && leadMatch cs ds

/-- needle occurs somewhere in the haystack (character lists). -/
def subMatch (needle : List Char) : List Char → Bool
  | [] => leadMatch [] needle
  | c :: t => leadMatch (c :: t) needle || subMatch needle t

/-- JS `haystack.includes(needle)` for strings. -/
def strIncludes (haystack needle : String) : Bool :=
  subMatch needle.toList haystack.toList

/-- JS `s || d` for strings: empty string is falsy. -/
def jsOrStr (s d : String) : String :=
  if s == "" then d else s

/-- JS `n || d` for numbers: 0 is falsy. -/
def jsOrNat (n d : Nat) : Nat :=
  if n == 0 then d else n

/-- An upstream HTTP response as seen on an axios error:
`status` is the HTTP status code, `bodyStr` is `some s` when
`response.data` is the string `s` and `none` when it is not a string. -/
structure UpstreamResponse where
  status : Nat
  bodyStr : Option String
  deriving DecidableEq, Repr

/-- An axios-style error: `response` is absent for network-level errors
(timeouts, connection resets, DNS failures), `code` is the node error
code (e.g. `ECONNRESET`, `ECONNABORTED`), `message` the error message. -/
structure AxiosError where
  response : Option UpstreamResponse
  code : Option String
  message : String
  deriving DecidableEq, Repr

/-- Outcome of one upstream attempt: axios either resolves with a payload
or rejects with an error. -/
inductive AttemptOutcome (α : Type) where
  | success (payload : α)
  | failure (e : AxiosError)
  deriving DecidableEq, Repr

/-- The classified error thrown by `makeNewsRequest` on exhaustion
(lines 175-179 of the controller). -/
structure ClassifiedError where
  status : Nat
  message : String
  isCloudflareIssue : Bool
  deriving DecidableEq, Repr

/-- The axios instance configuration `newsApiClient` (only the fields the
verified properties depend on: base URL, default User-Agent header,
timeout in milliseconds). -/
structure ClientConfig where
  baseURL : String
  userAgent : String
  timeoutMs : Nat
  deriving DecidableEq, Repr

def newsApiClient : ClientConfig :=
  { baseURL := "https://newsapi.org/v2"
    userAgent := "Mozilla/5.0 (Windows NT 10.0; Win64; x64) AppleWebKit/537.36 (KHTML, like Gecko) Chrome/91.0.4472.124 Safari/537.36"
    timeoutMs := 30000 }

/-- The fixed User-Agent pool of `getUserAgent`. -/
def userAgents : List String :=
  [ "Mozilla/5.0 (Windows NT 10.0; Win64; x64) AppleWebKit/537.36 (KHTML, like Gecko) Chrome/91.0.4472.124 Safari/537.36"
  , "Mozilla/5.0 (Macintosh; Intel Mac OS X 10_15_7) AppleWebKit/537.36 (KHTML, like Gecko) Chrome/91.0.4472.124 Safari/537.36"
  , "Mozilla/5.0 (X11; Linux x86_64) AppleWebKit/537.36 (KHTML, like Gecko) Chrome/91.0.4472.124 Safari/537.36"
  , "Mozilla/5.0 (Windows NT 10.0; Win64; x64; rv:89.0) Gecko/20100101 Firefox/89.0"
  , "Mozilla/5.0 (Macintosh; Intel Mac OS X 10.15; rv:89.0) Gecko/20100101 Firefox/89.0" ]

/-- `getUserAgent(attempt)` = `userAgents[(attempt - 1) % userAgents.length]`.
The index is always in range, so the `getD` default is never used. -/
def getUserAgent (attempt : Nat) : String :=
  userAgents.getD ((attempt - 1) % userAgents.length) ""

/-- The User-Agent header the request of a given attempt carries: the
per-request override `getUserAgent attempt` when `attempt > 1`, otherwise
the instance default header. -/
def requestUserAgent (attempt : Nat) : String :=
  if 1 < attempt then getUserAgent attempt else newsApiClient.userAgent

/-- `isCloudflareError(error)` (lines 198-210): no response → false;
string body → check for the three challenge markers; otherwise status
403 or 429. -/
def isCloudflareError (e : AxiosError) : Bool :=
  match e.response with
  | none => false
  | some r =>
    match r.bodyStr with
    | some s =>
      strIncludes s "cloudflare" || strIncludes s "Just a moment" ||
        strIncludes s "Enable JavaScript and cookies"
    | none => r.status == 403 || r.status == 429

/-- `getErrorMessage(error)` (lines 213-231). -/
def getErrorMessage (e : AxiosError) : String :=
  if isCloudflareError e then
    "News service is temporarily blocking requests. This usually resolves automatically. Please try again in a few minutes."
  else
    match e.response with
    | some r =>
      if r.status == 400 then "Invalid request parameters"
      else if r.status == 401 then "Invalid API key"
      else if r.status == 429 then "Rate limit exceeded. Please try again later."
      else if r.status == 500 then "News service is temporarily unavailable"
      else jsOrStr e.message "Unknown error occurred"
    | none => jsOrStr e.message "Unknown error occurred"

/-- The classified error object thrown at line 175-179:
`status: error.response?.status || 500`, user-friendly message,
Cloudflare flag. -/
def classify (e : AxiosError) : ClassifiedError :=
  { status :=
      match e.response with
      | some r => jsOrNat r.status 500
      | none => 500
    message := getErrorMessage e
    isCloudflareIssue := isCloudflareError e }

/-- The backoff condition of lines 159-163: HTTP 403, HTTP 429, node code
`ECONNRESET`, or a string body containing `cloudflare`. -/
def shouldBackoff (e : AxiosError) : Bool :=
  (match e.response with | some r => r.status == 403 | none => false) ||
  (match e.response with | some r => r.status == 429 | none => false) ||
  e.code == some "ECONNRESET" ||
  (match e.response with
   | some r =>
     match r.bodyStr with
     | some s => strIncludes s "cloudflare"
     | none => false
   | none => false)

/-- The query parameters the controller passes to `makeNewsRequest`
(before the API key is merged in). `page`/`pageSize` are JS numbers that
may be NaN (`none`). -/
structure SentParams where
  q : Option String
  country : Option String
  category : Option String
  language : Option String
  sortBy : Option String
  page : Option Int
  pageSize : Option Int
  deriving DecidableEq, Repr

/-- One outbound HTTP request as issued by the retry loop: the endpoint,
the params (with the API key merged in, recorded as a flag so the key
value itself never appears), and the effective User-Agent header. -/
structure OutRequest where
  endpoint : String
  params : SentParams
  apiKeyAttached : Bool
  userAgent : String
  deriving DecidableEq, Repr

/-- Observable result of one `makeNewsRequest` run: the value returned or
error thrown (`Except.ok none` models the JS function returning
`undefined` when the loop body never runs), the outbound requests made in
order, and the backoff waits (ms) performed in order. -/
structure RunResult (α : Type) where
  result : Except ClassifiedError (Option α)
  requests : List OutRequest
  waits : List Nat
  deriving Repr

/-- The body of the `for (let attempt = 1; attempt <= retries; attempt++)`
loop of `makeNewsRequest` (lines 138-182), recursing on fuel. On failure:
if the backoff condition holds and attempts remain, wait `2^attempt*1000`
ms and continue; otherwise, if this is the last attempt, throw the
classified error; otherwise fall through the catch block and continue
without waiting. -/
def loopFuel (endpoint : String) (params : SentParams)
    (upstream : Nat → AttemptOutcome α) (retries : Nat) :
    Nat → Nat → RunResult α
  | 0, _ => ⟨Except.ok none, [], []⟩
  | fuel + 1, attempt =>
    if retries < attempt then ⟨Except.ok none, [], []⟩
    else
      let req : OutRequest := ⟨endpoint, params, true, requestUserAgent attempt⟩
      match upstream attempt with
      | AttemptOutcome.success p => ⟨Except.ok (some p), [req], []⟩
      | AttemptOutcome.failure e =>
        if shouldBackoff e = true ∧ attempt < retries then
          let rest := loopFuel endpoint params upstream retries fuel (attempt + 1)
          ⟨rest.result, req :: rest.requests, 2 ^ attempt * 1000 :: rest.waits⟩
        else if attempt = retries then
          ⟨Except.error (classify e), [req], []⟩
        else
          let rest := loopFuel endpoint params upstream retries fuel (attempt + 1)
          ⟨rest.result, req :: rest.requests, rest.waits⟩

/-- `makeNewsRequest(endpoint, params, retries)` with the upstream
abstracted: run the retry loop from attempt 1. -/
def makeNewsRequest (endpoint : String) (params : SentParams)
    (upstream : Nat → AttemptOutcome α) (retries : Nat) : RunResult α :=
  loopFuel endpoint params upstream retries (retries + 1) 1

/-- All call sites use the default `retries = 3`. -/
def defaultRetries : Nat := 3

/-- JS `parseInt(s)` restricted to base-10 inputs as used here: skip
leading whitespace, optional sign, then a maximal run of digits; `none`
models `NaN` (no digits found). The hexadecimal `0x` form of full JS
`parseInt` is not modelled; no caller input in the verified properties
uses it. -/
def jsParseInt (s : String) : Option Int :=
  let cs := s.toList.dropWhile fun c =>
    c == ' ' || c == '\t' || c == '\n' || c == '\r'
  let core : List Char → Option Nat := fun l =>
    let ds := l.takeWhile fun c => c.isDigit
    if ds.isEmpty then none
    else some (ds.foldl (fun acc c => acc * 10 + (c.toNat - 48)) 0)
  match cs with
  | '-' :: rest => (core rest).map fun n => -(n : Int)
  | '+' :: rest => (core rest).map fun n => (n : Int)
  | _ => (core cs).map fun n => (n : Int)

/-- `const { page = 1, ... } = req.query` followed by `parseInt(page)`:
an absent parameter defaults to the given number (so `parseInt` of a
number that round-trips), a present one is parsed from its string. -/
def queryIntParam (v : Option String) (dflt : Int) : Option Int :=
  match v with
  | none => some dflt
  | some s => jsParseInt s

/-- The query string of an inbound request, restricted to the parameters
the handlers read. An absent parameter is `none`. -/
structure ReqQuery where
  q : Option String
  page : Option String
  pageSize : Option String
  deriving DecidableEq, Repr

/-- JS falsiness of `req.query.x` for a string-valued query parameter:
`undefined` (absent) and the empty string are falsy. -/
def jsFalsyQueryParam (v : Option String) : Bool :=
  match v with
  | none => true
  | some s => s == ""

/-- The body a handler serialises. A success response is
`{success:true, data, timestamp}` (the timestamp is wall-clock time and
not modelled); the search handler's input rejection is
`{success:false, error:'Search query is required'}`; an upstream failure
is `{success:false, error, message, isCloudflareIssue, retryAfter}`. -/
inductive RespBody (α : Type) where
  | ok (data : Option α)
  | inputError (error : String)
  | upstreamError (error : String) (message : String)
      (isCloudflareIssue : Bool) (retryAfter : Nat)
  deriving Repr

/-- Observable run of one handler: the HTTP status and body sent, plus
the outbound upstream requests and backoff waits performed. -/
structure HandlerRun (α : Type) where
  httpStatus : Nat
  body : RespBody α
  requests : List OutRequest
  waits : List Nat
  deriving Repr

/-- The params object `getTrendingNews` builds for `makeNewsRequest`:
`{country:'us', category:'general', page: parseInt(page), pageSize:
parseInt(pageSize)}` with destructuring defaults 1 and 10. -/
def trendingParams (query : ReqQuery) : SentParams :=
  { q := none, country := some "us", category := some "general"
    language := none, sortBy := none
    page := queryIntParam query.page 1
    pageSize := queryIntParam query.pageSize 10 }

/-- The params object `searchNews` builds for `makeNewsRequest`:
`{q, language:'en', sortBy:'relevancy', page: parseInt(page), pageSize:
parseInt(pageSize)}`. -/
def searchParams (query : ReqQuery) : SentParams :=
  { q := query.q, country := none, category := none
    language := some "en", sortBy := some "relevancy"
    page := queryIntParam query.page 1
    pageSize := queryIntParam query.pageSize 10 }

/-- `getTrendingNews` (lines 234-259): no validation of `page`/`pageSize`;
calls `makeNewsRequest('/top-headlines', {country:'us', category:'general',
page, pageSize})`; on success responds 200 with the payload, on a thrown
classified error responds `error.status || 500` with the error envelope
and `retryAfter` 300 when `isCloudflareIssue` else 60. -/
def getTrendingNews (query : ReqQuery)
    (upstream : Nat → AttemptOutcome α) : HandlerRun α :=
  let run := makeNewsRequest "/top-headlines" (trendingParams query) upstream defaultRetries
  match run.result with
  | Except.ok d => ⟨200, RespBody.ok d, run.requests, run.waits⟩
  | Except.error e =>
    ⟨jsOrNat e.status 500,
     RespBody.upstreamError "Failed to fetch trending news" e.message
       e.isCloudflareIssue (if e.isCloudflareIssue then 300 else 60),
     run.requests, run.waits⟩

/-- `searchNews` (lines 347-380): rejects a falsy `q` with 400 before any
upstream call; otherwise calls `makeNewsRequest('/everything',
{q, language:'en', sortBy:'relevancy', page, pageSize})` and serialises
the result like the other handlers. -/
def searchNews (query : ReqQuery)
    (upstream : Nat → AttemptOutcome α) : HandlerRun α :=
  if jsFalsyQueryParam query.q then
    ⟨400, RespBody.inputError "Search query is required", [], []⟩
  else
    let run := makeNewsRequest "/everything" (searchParams query) upstream defaultRetries
    match run.result with
    | Except.ok d => ⟨200, RespBody.ok d, run.requests, run.waits⟩
    | Except.error e =>
      ⟨jsOrNat e.status 500,
       RespBody.upstreamError "Failed to search news" e.message
         e.isCloudflareIssue (if e.isCloudflareIssue then 300 else 60),
       run.requests, run.waits⟩

/-! ### Fixtures: concrete axios errors used in witnesses and counterexamples -/

/-- A plain upstream 401 (non-string body, e.g. the provider's JSON error). -/
def err401resp : AxiosError :=
  ⟨some ⟨401, none⟩, none, "Request failed with status code 401"⟩

/-- A plain upstream 429 (non-string body). -/
def err429resp : AxiosError :=
  ⟨some ⟨429, none⟩, none, "Request failed with status code 429"⟩

/-- A 403 whose string body carries the `cloudflare` challenge marker. -/
def err403cfBody : AxiosError :=
  ⟨some ⟨403, some "Attention: checking your browser - cloudflare"⟩, none,
   "Request failed with status code 403"⟩

/-- A 403 whose body is a string with no challenge marker. -/
def err403plainBody : AxiosError :=
  ⟨some ⟨403, some "Forbidden"⟩, none, "Request failed with status code 403"⟩

/-- A plain upstream 500 (non-string body, no marker). -/
def err500resp : AxiosError :=
  ⟨some ⟨500, none⟩, none, "Request failed with status code 500"⟩

/-- The axios timeout rejection: no HTTP response, node code
`ECONNABORTED`. -/
def timeoutError : AxiosError :=
  ⟨none, some "ECONNABORTED", "timeout of 30000ms exceeded"⟩

/-! ### Claim-level predicates -/

/-- The body carries one of the three anti-bot challenge markers checked
by `isCloudflareError`. -/
def hasChallengeMarker (s : String) : Bool :=
  strIncludes s "cloudflare" || strIncludes s "Just a moment" ||
    strIncludes s "Enable JavaScript and cookies"

/-- The attempt failed with HTTP 429, or with HTTP 403 and a challenge
marker in a string body (the transient signature of the spec). -/
def transient429or403 (o : AttemptOutcome α) : Prop :=
  ∃ e r, o = AttemptOutcome.failure e ∧ e.response = some r ∧
    (r.status = 429 ∨
      (r.status = 403 ∧ ∃ s, r.bodyStr = some s ∧ hasChallengeMarker s = true))

/-- The attempt failed (with any error). -/
def failedAttempt (o : AttemptOutcome α) : Prop :=
  ∃ e, o = AttemptOutcome.failure e

/-- An axios timeout rejection: no response object, node code
`ECONNABORTED`. -/
def isTimeoutShape (e : AxiosError) : Prop :=
  e.response = none ∧ e.code = some "ECONNABORTED"

/-! ### Helper lemmas about the retry loop -/

theorem shouldBackoff_of_transient {α : Type} {o : AttemptOutcome α} {e : AxiosError}
    (ht : transient429or403 o) (he : o = AttemptOutcome.failure e) :
    shouldBackoff e = true := by
  obtain ⟨e', r, hfail, hresp, hcase⟩ := ht
  rw [he] at hfail
  cases hfail
  unfold shouldBackoff
  rw [hresp]
  rcases hcase with h429 | ⟨h403, -⟩
  · simp [h429]
  · simp [h403]

/-- One-step unfolding of the loop body at positive fuel. -/
theorem loopFuel_succ {α : Type} (ep : String) (pa : SentParams)
    (up : Nat → AttemptOutcome α) (retries fuel attempt : Nat) :
    loopFuel ep pa up retries (fuel + 1) attempt =
      if retries < attempt then ⟨Except.ok none, [], []⟩
      else
        let req : OutRequest := ⟨ep, pa, true, requestUserAgent attempt⟩
        match up attempt with
        | AttemptOutcome.success p => ⟨Except.ok (some p), [req], []⟩
        | AttemptOutcome.failure e =>
          if shouldBackoff e = true ∧ attempt < retries then
            let rest := loopFuel ep pa up retries fuel (attempt + 1)
            ⟨rest.result, req :: rest.requests, 2 ^ attempt * 1000 :: rest.waits⟩
          else if attempt = retries then
            ⟨Except.error (classify e), [req], []⟩
          else
            let rest := loopFuel ep pa up retries fuel (attempt + 1)
            ⟨rest.result, req :: rest.requests, rest.waits⟩ := rfl

theorem loopFuel_fail_lt {α : Type} (ep : String) (pa : SentParams)
    (up : Nat → AttemptOutcome α) (retries f f' attempt : Nat) (e : AxiosError)
    (hf : f = f' + 1)
    (he : up attempt = AttemptOutcome.failure e) (hlt : attempt < retries) :
    (loopFuel ep pa up retries f attempt).result =
      (loopFuel ep pa up retries f' (attempt + 1)).result ∧
    (loopFuel ep pa up retries f attempt).requests =
      ⟨ep, pa, true, requestUserAgent attempt⟩ ::
        (loopFuel ep pa up retries f' (attempt + 1)).requests := by
  subst hf
  rw [loopFuel_succ, if_neg (by omega), he]
  dsimp only
  by_cases hb : shouldBackoff e = true ∧ attempt < retries
  · rw [if_pos hb]
    exact ⟨rfl, rfl⟩
  · rw [if_neg hb, if_neg (by omega : ¬ attempt = retries)]
    exact ⟨rfl, rfl⟩

theorem loopFuel_fail_last {α : Type} (ep : String) (pa : SentParams)
    (up : Nat → AttemptOutcome α) (retries f f' : Nat) (e : AxiosError)
    (hf : f = f' + 1)
    (he : up retries = AttemptOutcome.failure e) :
    (loopFuel ep pa up retries f retries).result =
      Except.error (classify e) ∧
    (loopFuel ep pa up retries f retries).requests =
      [⟨ep, pa, true, requestUserAgent retries⟩] := by
  subst hf
  rw [loopFuel_succ, if_neg (by omega), he]
  dsimp only
  rw [if_neg (by omega : ¬ (shouldBackoff e = true ∧ retries < retries)),
      if_pos rfl]
  exact ⟨rfl, rfl⟩

theorem loopFuel_waits_backoff {α : Type} (ep : String) (pa : SentParams)
    (up : Nat → AttemptOutcome α) (retries f f' attempt : Nat) (e : AxiosError)
    (hf : f = f' + 1)
    (he : up attempt = AttemptOutcome.failure e)
    (hb : shouldBackoff e = true) (hlt : attempt < retries) :
    (loopFuel ep pa up retries f attempt).waits =
      2 ^ attempt * 1000 :: (loopFuel ep pa up retries f' (attempt + 1)).waits := by
  subst hf
  rw [loopFuel_succ, if_neg (by omega), he]
  dsimp only
  rw [if_pos ⟨hb, hlt⟩]

theorem loopFuel_waits_last {α : Type} (ep : String) (pa : SentParams)
    (up : Nat → AttemptOutcome α) (retries f f' : Nat) (e : AxiosError)
    (hf : f = f' + 1)
    (he : up retries = AttemptOutcome.failure e) :
    (loopFuel ep pa up retries f retries).waits = [] := by
  subst hf
  rw [loopFuel_succ, if_neg (by omega), he]
  dsimp only
  rw [if_neg (by omega : ¬ (shouldBackoff e = true ∧ retries < retries)),
      if_pos rfl]

/-- A success on attempt `attempt ≤ retries` returns the payload at once:
one request, no waits. -/
theorem loopFuel_success {α : Type} (ep : String) (pa : SentParams)
    (up : Nat → AttemptOutcome α) (retries f f' attempt : Nat) (p : α)
    (hf : f = f' + 1)
    (he : up attempt = AttemptOutcome.success p) (hle : attempt ≤ retries) :
    loopFuel ep pa up retries f attempt =
      ⟨Except.ok (some p), [⟨ep, pa, true, requestUserAgent attempt⟩], []⟩ := by
  subst hf
  rw [loopFuel_succ, if_neg (by omega), he]

/-- Any error thrown by the loop is the classification of the error of
the final attempt `retries`. -/
theorem loopFuel_error_classify {α : Type} (ep : String) (pa : SentParams)
    (up : Nat → AttemptOutcome α) (retries : Nat) :
    ∀ fuel attempt c,
      (loopFuel ep pa up retries fuel attempt).result = Except.error c →
      ∃ e, up retries = AttemptOutcome.failure e ∧ c = classify e := by
  intro fuel
  induction fuel with
  | zero =>
    intro attempt c h
    simp [loopFuel] at h
  | succ f ih =>
    intro attempt c h
    rw [loopFuel_succ] at h
    by_cases hga : retries < attempt
    · rw [if_pos hga] at h
      simp at h
    · rw [if_neg hga] at h
      dsimp only at h
      cases ho : up attempt with
      | success p =>
        rw [ho] at h
        simp at h
      | failure e =>
        rw [ho] at h
        dsimp only at h
        by_cases hb : shouldBackoff e = true ∧ attempt < retries
        · rw [if_pos hb] at h
          exact ih (attempt + 1) c h
        · rw [if_neg hb] at h
          by_cases hl : attempt = retries
          · rw [if_pos hl] at h
            dsimp only at h
            subst hl
            exact ⟨e, ho, (Except.error.inj h).symm⟩
          · rw [if_neg hl] at h
            exact ih (attempt + 1) c h

/-- The number of requests the loop issues from a given attempt never
exceeds the attempts remaining. -/
theorem loopFuel_len_le {α : Type} (ep : String) (pa : SentParams)
    (up : Nat → AttemptOutcome α) (retries : Nat) :
    ∀ fuel attempt,
      (loopFuel ep pa up retries fuel attempt).requests.length ≤
        retries + 1 - attempt := by
  intro fuel
  induction fuel with
  | zero =>
    intro attempt
    simp [loopFuel]
  | succ f ih =>
    intro attempt
    rw [loopFuel_succ]
    by_cases hga : retries < attempt
    · rw [if_pos hga]
      simp
    · rw [if_neg hga]
      dsimp only
      cases ho : up attempt with
      | success p =>
        simp
        omega
      | failure e =>
        dsimp only
        by_cases hb : shouldBackoff e = true ∧ attempt < retries
        · rw [if_pos hb]
          have := ih (attempt + 1)
          simp
          omega
        · rw [if_neg hb]
          by_cases hl : attempt = retries
          · rw [if_pos hl]
            simp
            omega
          · rw [if_neg hl]
            have := ih (attempt + 1)
            simp
            omega

/-- Every request the loop issues carries the endpoint and params it was
given: attempts never mutate the query. -/
theorem loopFuel_params_fixed {α : Type} (ep : String) (pa : SentParams)
    (up : Nat → AttemptOutcome α) (retries : Nat) :
    ∀ fuel attempt req,
      req ∈ (loopFuel ep pa up retries fuel attempt).requests →
      req.endpoint = ep ∧ req.params = pa ∧ req.apiKeyAttached = true := by
  intro fuel
  induction fuel with
  | zero =>
    intro attempt req h
    simp [loopFuel] at h
  | succ f ih =>
    intro attempt req h
    rw [loopFuel_succ] at h
    by_cases hga : retries < attempt
    · rw [if_pos hga] at h
      simp at h
    · rw [if_neg hga] at h
      dsimp only at h
      cases ho : up attempt with
      | success p =>
        rw [ho] at h
        simp at h
        subst h
        exact ⟨rfl, rfl, rfl⟩
      | failure e =>
        rw [ho] at h
        dsimp only at h
        by_cases hb : shouldBackoff e = true ∧ attempt < retries
        · rw [if_pos hb] at h
          dsimp only at h
          rcases List.mem_cons.mp h with h | h
          · subst h
            exact ⟨rfl, rfl, rfl⟩
          · exact ih (attempt + 1) req h
        · rw [if_neg hb] at h
          by_cases hl : attempt = retries
          · rw [if_pos hl] at h
            simp at h
            subst h
            exact ⟨rfl, rfl, rfl⟩
          · rw [if_neg hl] at h
            dsimp only at h
            rcases List.mem_cons.mp h with h | h
            · subst h
              exact ⟨rfl, rfl, rfl⟩
            · exact ih (attempt + 1) req h

/-- Whatever the upstream does, the first attempt's request is issued
when `1 ≤ retries`. -/
theorem makeNewsRequest_calls_pos {α : Type} (ep : String) (pa : SentParams)
    (up : Nat → AttemptOutcome α) (retries : Nat) (hr : 1 ≤ retries) :
    1 ≤ (makeNewsRequest ep pa up retries).requests.length := by
  unfold makeNewsRequest
  rw [loopFuel_succ, if_neg (by omega)]
  dsimp only
  cases ho : up 1 with
  | success p => simp
  | failure e =>
    dsimp only
    by_cases hb : shouldBackoff e = true ∧ 1 < retries
    · rw [if_pos hb]
      simp
    · rw [if_neg hb]
      by_cases hl : (1 : Nat) = retries
      · rw [if_pos hl]
        simp
      · rw [if_neg hl]
        simp

/-- When every attempt up to 3 fails, the run with `retries = 3` throws
the classification of attempt 3's error and issues exactly the three
requests of attempts 1, 2, 3. -/
theorem makeNewsRequest3_allFail {α : Type} (ep : String) (pa : SentParams)
    (up : Nat → AttemptOutcome α)
    (e1 e2 e3 : AxiosError)
    (h1 : up 1 = AttemptOutcome.failure e1)
    (h2 : up 2 = AttemptOutcome.failure e2)
    (h3 : up 3 = AttemptOutcome.failure e3) :
    (makeNewsRequest ep pa up 3).result = Except.error (classify e3) ∧
    (makeNewsRequest ep pa up 3).requests =
      [⟨ep, pa, true, requestUserAgent 1⟩,
       ⟨ep, pa, true, requestUserAgent 2⟩,
       ⟨ep, pa, true, requestUserAgent 3⟩] := by
  unfold makeNewsRequest
  have s1 := loopFuel_fail_lt ep pa up 3 (3 + 1) 3 1 e1 rfl h1 (by omega)
  have s2 := loopFuel_fail_lt ep pa up 3 3 2 2 e2 (by norm_num) h2 (by omega)
  have s3 := loopFuel_fail_last ep pa up 3 2 1 e3 (by norm_num) h3
  constructor
  · rw [s1.1, s2.1, s3.1]
  · rw [s1.2, s2.2, s3.2]

/-- A success on the first attempt short-circuits the loop for any
`retries ≥ 1`. -/
theorem makeNewsRequest_success_first {α : Type} (ep : String) (pa : SentParams)
    (up : Nat → AttemptOutcome α) (retries : Nat) (p : α)
    (hr : 1 ≤ retries) (h : up 1 = AttemptOutcome.success p) :
    makeNewsRequest ep pa up retries =
      ⟨Except.ok (some p), [⟨ep, pa, true, requestUserAgent 1⟩], []⟩ := by
  unfold makeNewsRequest
  exact loopFuel_success ep pa up retries (retries + 1) retries 1 p rfl h hr

/-- The trending handler passes the loop's request log through untouched
on both the success and the error path. -/
theorem getTrendingNews_requests {α : Type} (query : ReqQuery)
    (upstream : Nat → AttemptOutcome α) :
    (getTrendingNews query upstream).requests =
      (makeNewsRequest "/top-headlines" (trendingParams query) upstream
        defaultRetries).requests := by
  unfold getTrendingNews
  cases h : (makeNewsRequest "/top-headlines" (trendingParams query) upstream
      defaultRetries).result <;> simp [h]

/-- When the loop throws, the trending handler serialises the classified
error into the envelope with `retryAfter` 300/60 by the Cloudflare flag. -/
theorem getTrendingNews_error_env {α : Type} (query : ReqQuery)
    (upstream : Nat → AttemptOutcome α) (c : ClassifiedError)
    (h : (makeNewsRequest "/top-headlines" (trendingParams query) upstream
        defaultRetries).result = Except.error c) :
    (getTrendingNews query upstream).httpStatus = jsOrNat c.status 500 ∧
    (getTrendingNews query upstream).body =
      RespBody.upstreamError "Failed to fetch trending news" c.message
        c.isCloudflareIssue (if c.isCloudflareIssue then 300 else 60) := by
  unfold getTrendingNews
  simp [h]

/-- With a truthy `q`, the search handler passes the loop's request log
through untouched. -/
theorem searchNews_requests {α : Type} (query : ReqQuery)
    (upstream : Nat → AttemptOutcome α)
    (hq : jsFalsyQueryParam query.q = false) :
    (searchNews query upstream).requests =
      (makeNewsRequest "/everything" (searchParams query) upstream
        defaultRetries).requests := by
  unfold searchNews
  rw [if_neg (by simp [hq])]
  cases h : (makeNewsRequest "/everything" (searchParams query) upstream
      defaultRetries).result <;> simp [h]

theorem loopFuel_waits_nobackoff {α : Type} (ep : String) (pa : SentParams)
    (up : Nat → AttemptOutcome α) (retries f f' attempt : Nat) (e : AxiosError)
    (hf : f = f' + 1)
    (he : up attempt = AttemptOutcome.failure e)
    (hb : shouldBackoff e = false) (hlt : attempt < retries) :
    (loopFuel ep pa up retries f attempt).waits =
      (loopFuel ep pa up retries f' (attempt + 1)).waits := by
  subst hf
  rw [loopFuel_succ, if_neg (by omega), he]
  dsimp only
  rw [if_neg (by simp [hb]), if_neg (by omega : ¬ attempt = retries)]

theorem shouldBackoff_timeout {e : AxiosError} (ht : isTimeoutShape e) :
    shouldBackoff e = false := by
  obtain ⟨hr, hc⟩ := ht
  unfold shouldBackoff
  rw [hr, hc]
  rfl

theorem classify_timeout {e : AxiosError} (ht : isTimeoutShape e) :
    classify e = ⟨500, jsOrStr e.message "Unknown error occurred", false⟩ := by
  obtain ⟨hr, hc⟩ := ht
  unfold classify getErrorMessage isCloudflareError
  rw [hr]
  rfl

/-! ### Claim theorems -/

/-- C1 (code bug exhibit): on a 401 from the upstream on every attempt,
`makeNewsRequest` with `retries = 3` issues 3 upstream calls — not the
single call the spec (and the code's own comment at line 173) requires —
and only then surfaces the classified auth error. -/
theorem upstream401_retried_three_times :
    (makeNewsRequest "/top-headlines" (trendingParams ⟨none, none, none⟩)
        (fun _ => AttemptOutcome.failure err401resp : Nat → AttemptOutcome Unit)
        3).requests.length = 3 ∧
    (makeNewsRequest "/top-headlines" (trendingParams ⟨none, none, none⟩)
        (fun _ => AttemptOutcome.failure err401resp : Nat → AttemptOutcome Unit)
        3).result =
      Except.error ⟨401, "Invalid API key", false⟩ :=
  ⟨rfl, rfl⟩

/-- C2: when every attempt fails with a transient signature (429, or 403
with a challenge marker), the run with `retries = 3` makes exactly 3
calls, waits `2^1*1000` ms before attempt 2 and `2^2*1000` ms before
attempt 3, and throws the classification of the final error; and for any
upstream behaviour at all the call count never exceeds 3. -/
theorem transient_exhaustion_three_calls_backoff {α : Type}
    (ep : String) (pa : SentParams) (upstream : Nat → AttemptOutcome α)
    (h : ∀ k, 1 ≤ k → k ≤ 3 → transient429or403 (upstream k)) :
    (makeNewsRequest ep pa upstream 3).requests.length = 3 ∧
    (makeNewsRequest ep pa upstream 3).waits = [2 ^ 1 * 1000, 2 ^ 2 * 1000] ∧
    (∀ e, upstream 3 = AttemptOutcome.failure e →
      (makeNewsRequest ep pa upstream 3).result = Except.error (classify e)) ∧
    ∀ up2 : Nat → AttemptOutcome α,
      (makeNewsRequest ep pa up2 3).requests.length ≤ 3 := by
  obtain ⟨e1, r1, hf1, hr1, hc1⟩ := h 1 (by omega) (by omega)
  obtain ⟨e2, r2, hf2, hr2, hc2⟩ := h 2 (by omega) (by omega)
  obtain ⟨e3, r3, hf3, hr3, hc3⟩ := h 3 (by omega) (by omega)
  have hb1 : shouldBackoff e1 = true :=
    shouldBackoff_of_transient ⟨e1, r1, hf1, hr1, hc1⟩ hf1
  have hb2 : shouldBackoff e2 = true :=
    shouldBackoff_of_transient ⟨e2, r2, hf2, hr2, hc2⟩ hf2
  refine ⟨?_, ?_, ?_, ?_⟩
  · rw [(makeNewsRequest3_allFail ep pa upstream e1 e2 e3 hf1 hf2 hf3).2]
    rfl
  · unfold makeNewsRequest
    rw [loopFuel_waits_backoff ep pa upstream 3 (3 + 1) 3 1 e1 rfl hf1 hb1
          (by omega),
        loopFuel_waits_backoff ep pa upstream 3 3 2 2 e2 (by norm_num) hf2 hb2
          (by omega),
        loopFuel_waits_last ep pa upstream 3 2 1 e3 (by norm_num) hf3]
  · intro e h3e
    rw [hf3] at h3e
    cases AttemptOutcome.failure.inj h3e
    exact (makeNewsRequest3_allFail ep pa upstream e1 e2 e3 hf1 hf2 hf3).1
  · intro up2
    have hlen := loopFuel_len_le ep pa up2 3 (3 + 1) 1
    unfold makeNewsRequest
    omega

/-- Witness for C2 at a concrete upstream that returns a plain 429 on
every attempt. -/
theorem transient_exhaustion_witness :
    (makeNewsRequest "/top-headlines" (trendingParams ⟨none, none, none⟩)
        (fun _ => AttemptOutcome.failure err429resp : Nat → AttemptOutcome Unit)
        3).requests.length = 3 ∧
    (makeNewsRequest "/top-headlines" (trendingParams ⟨none, none, none⟩)
        (fun _ => AttemptOutcome.failure err429resp : Nat → AttemptOutcome Unit)
        3).waits =
      [2 ^ 1 * 1000, 2 ^ 2 * 1000] ∧
    (∀ e, (fun _ => AttemptOutcome.failure err429resp : Nat → AttemptOutcome Unit) 3 =
        AttemptOutcome.failure e →
      (makeNewsRequest "/top-headlines" (trendingParams ⟨none, none, none⟩)
          (fun _ => AttemptOutcome.failure err429resp : Nat → AttemptOutcome Unit)
          3).result =
        Except.error (classify e)) ∧
    ∀ up2 : Nat → AttemptOutcome Unit,
      (makeNewsRequest "/top-headlines" (trendingParams ⟨none, none, none⟩)
          up2 3).requests.length ≤ 3 :=
  transient_exhaustion_three_calls_backoff "/top-headlines"
    (trendingParams ⟨none, none, none⟩)
    (fun _ => AttemptOutcome.failure err429resp)
    (fun _ _ _ => ⟨err429resp, ⟨429, none⟩, rfl, rfl, Or.inl rfl⟩)

/-- C3 (counterexample): a 403 whose response body is the plain string
"Forbidden" is classified with `isCloudflareIssue = false`, refuting
"isCloudflareIssue = true regardless of the response body's content". -/
theorem status403_plain_body_not_flagged :
    err403plainBody.response = some ⟨403, some "Forbidden"⟩ ∧
    isCloudflareError err403plainBody = false ∧
    (makeNewsRequest "/top-headlines" (trendingParams ⟨none, none, none⟩)
        (fun _ => AttemptOutcome.failure err403plainBody :
          Nat → AttemptOutcome Unit) 3).result =
      Except.error ⟨403, "Request failed with status code 403", false⟩ :=
  ⟨rfl, rfl, rfl⟩

/-- C3 (amended): for a 403 failure, `isCloudflareIssue` is true when the
body is not a string, and when the body is a string it is true exactly
when the body contains one of the three challenge markers. -/
theorem status403_classification (e : AxiosError) (r : UpstreamResponse)
    (hr : e.response = some r) (hs : r.status = 403) :
    isCloudflareError e =
      (match r.bodyStr with
       | none => true
       | some s => hasChallengeMarker s) := by
  unfold isCloudflareError
  rw [hr]
  dsimp only
  cases hbody : r.bodyStr with
  | none => simp [hs]
  | some s => simp [hasChallengeMarker]

/-- Witness for the amended C3 at a 403 whose string body carries the
`cloudflare` marker. -/
theorem status403_classification_witness :
    err403cfBody.response =
      some ⟨403, some "Attention: checking your browser - cloudflare"⟩ ∧
    isCloudflareError err403cfBody =
      (match (some "Attention: checking your browser - cloudflare" :
          Option String) with
       | none => true
       | some s => hasChallengeMarker s) :=
  ⟨rfl, status403_classification err403cfBody
    ⟨403, some "Attention: checking your browser - cloudflare"⟩ rfl rfl⟩

/-- C4 (counterexample): an axios timeout (no response, code
`ECONNABORTED`) on every attempt does not match the backoff condition:
the run performs no backoff wait at all, and the exhausted error is
classified non-transient (`isCloudflareIssue = false`), refuting
"a timeout is classified as a retryable transient failure and triggers
the exponential-backoff wait". -/
theorem timeout_not_transient_no_wait :
    timeoutError.response = none ∧
    timeoutError.code = some "ECONNABORTED" ∧
    shouldBackoff timeoutError = false ∧
    (makeNewsRequest "/top-headlines" (trendingParams ⟨none, none, none⟩)
        (fun _ => AttemptOutcome.failure timeoutError :
          Nat → AttemptOutcome Unit) 3).waits = [] ∧
    (makeNewsRequest "/top-headlines" (trendingParams ⟨none, none, none⟩)
        (fun _ => AttemptOutcome.failure timeoutError :
          Nat → AttemptOutcome Unit) 3).result =
      Except.error ⟨500, "timeout of 30000ms exceeded", false⟩ :=
  ⟨rfl, rfl, rfl, rfl, rfl⟩

/-- C4 (amended): the per-call timeout is bounded at 30000 ms; a timeout
rejection on every attempt is retried to exhaustion (3 calls) but with no
backoff wait between attempts, and the error that escapes is classified
with status 500 and `isCloudflareIssue = false`. -/
theorem timeout_retried_without_wait {α : Type}
    (ep : String) (pa : SentParams) (upstream : Nat → AttemptOutcome α)
    (h : ∀ k, 1 ≤ k → k ≤ 3 →
      ∃ e, upstream k = AttemptOutcome.failure e ∧ isTimeoutShape e) :
    newsApiClient.timeoutMs = 30000 ∧
    (makeNewsRequest ep pa upstream 3).requests.length = 3 ∧
    (makeNewsRequest ep pa upstream 3).waits = [] ∧
    ∀ e, upstream 3 = AttemptOutcome.failure e →
      (makeNewsRequest ep pa upstream 3).result =
        Except.error ⟨500, jsOrStr e.message "Unknown error occurred", false⟩ := by
  obtain ⟨e1, hf1, ht1⟩ := h 1 (by omega) (by omega)
  obtain ⟨e2, hf2, ht2⟩ := h 2 (by omega) (by omega)
  obtain ⟨e3, hf3, ht3⟩ := h 3 (by omega) (by omega)
  refine ⟨rfl, ?_, ?_, ?_⟩
  · rw [(makeNewsRequest3_allFail ep pa upstream e1 e2 e3 hf1 hf2 hf3).2]
    rfl
  · unfold makeNewsRequest
    rw [loopFuel_waits_nobackoff ep pa upstream 3 (3 + 1) 3 1 e1 rfl hf1
          (shouldBackoff_timeout ht1) (by omega),
        loopFuel_waits_nobackoff ep pa upstream 3 3 2 2 e2 (by norm_num) hf2
          (shouldBackoff_timeout ht2) (by omega),
        loopFuel_waits_last ep pa upstream 3 2 1 e3 (by norm_num) hf3]
  · intro e h3e
    rw [hf3] at h3e
    cases AttemptOutcome.failure.inj h3e
    rw [(makeNewsRequest3_allFail ep pa upstream e1 e2 e3 hf1 hf2 hf3).1,
        classify_timeout ht3]

/-- Witness for the amended C4 at the concrete timeout rejection. -/
theorem timeout_retried_without_wait_witness :
    newsApiClient.timeoutMs = 30000 ∧
    (makeNewsRequest "/top-headlines" (trendingParams ⟨none, none, none⟩)
        (fun _ => AttemptOutcome.failure timeoutError :
          Nat → AttemptOutcome Unit) 3).requests.length = 3 ∧
    (makeNewsRequest "/top-headlines" (trendingParams ⟨none, none, none⟩)
        (fun _ => AttemptOutcome.failure timeoutError :
          Nat → AttemptOutcome Unit) 3).waits = [] ∧
    ∀ e, (fun _ => AttemptOutcome.failure timeoutError :
        Nat → AttemptOutcome Unit) 3 = AttemptOutcome.failure e →
      (makeNewsRequest "/top-headlines" (trendingParams ⟨none, none, none⟩)
          (fun _ => AttemptOutcome.failure timeoutError :
            Nat → AttemptOutcome Unit) 3).result =
        Except.error ⟨500, jsOrStr e.message "Unknown error occurred", false⟩ :=
  timeout_retried_without_wait "/top-headlines"
    (trendingParams ⟨none, none, none⟩)
    (fun _ => AttemptOutcome.failure timeoutError)
    (fun _ _ _ => ⟨timeoutError, rfl, rfl, rfl⟩)

/-- C5: a success on the first attempt is returned at once, the payload
passed through unchanged, with exactly one upstream request and no waits
(the remaining retries are short-circuited). -/
theorem success_first_attempt_single_call {α : Type}
    (ep : String) (pa : SentParams) (upstream : Nat → AttemptOutcome α)
    (p : α) (h : upstream 1 = AttemptOutcome.success p) :
    makeNewsRequest ep pa upstream 3 =
      ⟨Except.ok (some p), [⟨ep, pa, true, requestUserAgent 1⟩], []⟩ :=
  makeNewsRequest_success_first ep pa upstream 3 p (by omega) h

/-- Witness for C5 at a concrete always-succeeding upstream. -/
theorem success_first_attempt_witness :
    makeNewsRequest "/top-headlines" (trendingParams ⟨none, none, none⟩)
        (fun _ => AttemptOutcome.success 42 : Nat → AttemptOutcome Nat) 3 =
      ⟨Except.ok (some 42),
       [⟨"/top-headlines", trendingParams ⟨none, none, none⟩, true,
         requestUserAgent 1⟩], []⟩ :=
  success_first_attempt_single_call "/top-headlines"
    (trendingParams ⟨none, none, none⟩)
    (fun _ => AttemptOutcome.success 42) 42 rfl

/-- C6: a request to the search endpoint whose `q` is absent or the empty
string is answered with HTTP 400 and the input-error body, and no
upstream request is issued. -/
theorem search_falsy_q_rejected_no_upstream {α : Type}
    (query : ReqQuery) (upstream : Nat → AttemptOutcome α)
    (h : query.q = none ∨ query.q = some "") :
    searchNews query upstream =
      ⟨400, RespBody.inputError "Search query is required", [], []⟩ := by
  have hf : jsFalsyQueryParam query.q = true := by
    rcases h with h | h <;> simp [jsFalsyQueryParam, h]
  unfold searchNews
  rw [if_pos hf]

/-- Witness for C6 at an absent `q`. -/
theorem search_falsy_q_rejected_witness :
    searchNews ⟨none, none, none⟩
        (fun _ => AttemptOutcome.success 0 : Nat → AttemptOutcome Nat) =
      ⟨400, RespBody.inputError "Search query is required", [], []⟩ :=
  search_falsy_q_rejected_no_upstream ⟨none, none, none⟩
    (fun _ => AttemptOutcome.success 0) (Or.inl rfl)

/-- C7: after exhaustion, a final 403 failure whose string body contains
"cloudflare" yields a trending envelope with `isCloudflareIssue = true`
and `retryAfter ≥ 300`; a final plain 500 (no challenge marker) yields
`isCloudflareIssue = false` and `retryAfter ≤ 60`. -/
theorem exhausted_retry_after_hints {α : Type} (query : ReqQuery)
    (upstream : Nat → AttemptOutcome α)
    (hfail : ∀ k, 1 ≤ k → k ≤ 3 → failedAttempt (upstream k)) :
    (∀ e r s, upstream 3 = AttemptOutcome.failure e → e.response = some r →
        r.status = 403 → r.bodyStr = some s →
        strIncludes s "cloudflare" = true →
        ∃ m ra, (getTrendingNews query upstream).body =
            RespBody.upstreamError "Failed to fetch trending news" m true ra ∧
          300 ≤ ra) ∧
    (∀ e r, upstream 3 = AttemptOutcome.failure e → e.response = some r →
        r.status = 500 →
        (r.bodyStr = none ∨
          ∃ s, r.bodyStr = some s ∧ hasChallengeMarker s = false) →
        ∃ m ra, (getTrendingNews query upstream).body =
            RespBody.upstreamError "Failed to fetch trending news" m false ra ∧
          ra ≤ 60) := by
  obtain ⟨e1, hf1⟩ := hfail 1 (by omega) (by omega)
  obtain ⟨e2, hf2⟩ := hfail 2 (by omega) (by omega)
  constructor
  · intro e r s h3 hr hst hbody hcf
    have hres := (makeNewsRequest3_allFail "/top-headlines"
      (trendingParams query) upstream e1 e2 e hf1 hf2 h3).1
    have henv := getTrendingNews_error_env query upstream (classify e) hres
    have hflag : isCloudflareError e = true := by
      unfold isCloudflareError
      rw [hr]
      dsimp only
      rw [hbody]
      simp [hcf]
    have hci : (classify e).isCloudflareIssue = true := hflag
    refine ⟨(classify e).message, 300, ?_, by omega⟩
    rw [henv.2, hci]
    simp
  · intro e r h3 hr hst hbody
    have hres := (makeNewsRequest3_allFail "/top-headlines"
      (trendingParams query) upstream e1 e2 e hf1 hf2 h3).1
    have henv := getTrendingNews_error_env query upstream (classify e) hres
    have hflag : isCloudflareError e = false := by
      unfold isCloudflareError
      rw [hr]
      dsimp only
      rcases hbody with hb | ⟨s, hb, hm⟩
      · rw [hb]
        simp [hst]
      · rw [hb]
        exact hm
    have hci : (classify e).isCloudflareIssue = false := hflag
    refine ⟨(classify e).message, 60, ?_, by omega⟩
    rw [henv.2, hci]
    simp

/-- Witness for C7: the first part at an exhausted 403 with a
`cloudflare` body, the second at an exhausted plain 500. -/
theorem exhausted_retry_after_hints_witness :
    (∃ m ra, (getTrendingNews ⟨none, none, none⟩
        (fun _ => AttemptOutcome.failure err403cfBody :
          Nat → AttemptOutcome Unit)).body =
        RespBody.upstreamError "Failed to fetch trending news" m true ra ∧
      300 ≤ ra) ∧
    (∃ m ra, (getTrendingNews ⟨none, none, none⟩
        (fun _ => AttemptOutcome.failure err500resp :
          Nat → AttemptOutcome Unit)).body =
        RespBody.upstreamError "Failed to fetch trending news" m false ra ∧
      ra ≤ 60) :=
  ⟨(exhausted_retry_after_hints ⟨none, none, none⟩
      (fun _ => AttemptOutcome.failure err403cfBody)
      (fun _ _ _ => ⟨err403cfBody, rfl⟩)).1
    err403cfBody ⟨403, some "Attention: checking your browser - cloudflare"⟩
    "Attention: checking your browser - cloudflare" rfl rfl rfl rfl (by decide),
   (exhausted_retry_after_hints ⟨none, none, none⟩
      (fun _ => AttemptOutcome.failure err500resp)
      (fun _ _ _ => ⟨err500resp, rfl⟩)).2
    err500resp ⟨500, none⟩ rfl rfl rfl (Or.inl rfl)⟩

/-- C8: on a logical fetch whose attempts 1-3 all run, the User-Agent
headers sent are attempt 1's instance default and `getUserAgent 2`,
`getUserAgent 3` — pairwise distinct, drawn by modular index from the
fixed pool of 5 (≥ 3) signatures. -/
theorem user_agent_rotation {α : Type} (ep : String) (pa : SentParams)
    (upstream : Nat → AttemptOutcome α)
    (hfail : ∀ k, 1 ≤ k → k ≤ 3 → failedAttempt (upstream k)) :
    (makeNewsRequest ep pa upstream 3).requests.map OutRequest.userAgent =
      [requestUserAgent 1, requestUserAgent 2, requestUserAgent 3] ∧
    requestUserAgent 2 ≠ requestUserAgent 1 ∧
    requestUserAgent 3 ≠ requestUserAgent 1 ∧
    requestUserAgent 3 ≠ requestUserAgent 2 ∧
    requestUserAgent 2 = getUserAgent 2 ∧
    requestUserAgent 3 = getUserAgent 3 ∧
    getUserAgent 2 = userAgents.getD ((2 - 1) % userAgents.length) "" ∧
    getUserAgent 3 = userAgents.getD ((3 - 1) % userAgents.length) "" ∧
    3 ≤ userAgents.length := by
  obtain ⟨e1, hf1⟩ := hfail 1 (by omega) (by omega)
  obtain ⟨e2, hf2⟩ := hfail 2 (by omega) (by omega)
  obtain ⟨e3, hf3⟩ := hfail 3 (by omega) (by omega)
  refine ⟨?_, by decide, by decide, by decide, rfl, rfl, rfl, rfl, by decide⟩
  rw [(makeNewsRequest3_allFail ep pa upstream e1 e2 e3 hf1 hf2 hf3).2]
  rfl

/-- Witness for C8 at a concrete always-failing upstream. -/
theorem user_agent_rotation_witness :
    (makeNewsRequest "/top-headlines" (trendingParams ⟨none, none, none⟩)
        (fun _ => AttemptOutcome.failure err429resp :
          Nat → AttemptOutcome Unit) 3).requests.map OutRequest.userAgent =
      [requestUserAgent 1, requestUserAgent 2, requestUserAgent 3] ∧
    requestUserAgent 2 ≠ requestUserAgent 1 ∧
    requestUserAgent 3 ≠ requestUserAgent 1 ∧
    requestUserAgent 3 ≠ requestUserAgent 2 ∧
    requestUserAgent 2 = getUserAgent 2 ∧
    requestUserAgent 3 = getUserAgent 3 ∧
    getUserAgent 2 = userAgents.getD ((2 - 1) % userAgents.length) "" ∧
    getUserAgent 3 = userAgents.getD ((3 - 1) % userAgents.length) "" ∧
    3 ≤ userAgents.length :=
  user_agent_rotation "/top-headlines" (trendingParams ⟨none, none, none⟩)
    (fun _ => AttemptOutcome.failure err429resp)
    (fun _ _ _ => ⟨err429resp, rfl⟩)

/-- C9: any error that escapes `makeNewsRequest` is the classification of
the final attempt's axios error: its `status` is the response status (or
500 when the failure carries none, with JS-falsy 0 also mapped to 500),
its `message` is `getErrorMessage`, and its `isCloudflareIssue` is
`isCloudflareError` — never the raw axios error. -/
theorem errors_escape_classified {α : Type} (ep : String) (pa : SentParams)
    (upstream : Nat → AttemptOutcome α) (retries : Nat) (c : ClassifiedError)
    (h : (makeNewsRequest ep pa upstream retries).result = Except.error c) :
    ∃ e, upstream retries = AttemptOutcome.failure e ∧ c = classify e ∧
      c.status = (match e.response with
                  | some r => jsOrNat r.status 500
                  | none => 500) ∧
      c.message = getErrorMessage e ∧
      c.isCloudflareIssue = isCloudflareError e := by
  obtain ⟨e, he, hc⟩ :=
    loopFuel_error_classify ep pa upstream retries (retries + 1) 1 c h
  subst hc
  exact ⟨e, he, rfl, rfl, rfl, rfl⟩

/-- Witness for C9 at an exhausted plain 500. -/
theorem errors_escape_classified_witness :
    ∃ e, (fun _ => AttemptOutcome.failure err500resp :
        Nat → AttemptOutcome Unit) 3 = AttemptOutcome.failure e ∧
      (⟨500, "News service is temporarily unavailable", false⟩ :
        ClassifiedError) = classify e ∧
      (⟨500, "News service is temporarily unavailable", false⟩ :
        ClassifiedError).status =
        (match e.response with
         | some r => jsOrNat r.status 500
         | none => 500) ∧
      (⟨500, "News service is temporarily unavailable", false⟩ :
        ClassifiedError).message = getErrorMessage e ∧
      (⟨500, "News service is temporarily unavailable", false⟩ :
        ClassifiedError).isCloudflareIssue = isCloudflareError e :=
  errors_escape_classified "/top-headlines" (trendingParams ⟨none, none, none⟩)
    (fun _ => AttemptOutcome.failure err500resp) 3
    ⟨500, "News service is temporarily unavailable", false⟩ rfl

/-- C10 (implicit): `page` and `pageSize` are never validated — both
handlers always reach the upstream call, forwarding `parseInt` of the raw
values (NaN, modelled `none`, for non-numeric input) — and only the
search endpoint's `q` is ever rejected before contacting upstream. -/
theorem page_pageSize_forwarded_unvalidated {α : Type}
    (p ps : Option String) (s : String) (hs : s ≠ "")
    (upstream : Nat → AttemptOutcome α) :
    1 ≤ (getTrendingNews ⟨none, p, ps⟩ upstream).requests.length ∧
    (∀ req ∈ (getTrendingNews ⟨none, p, ps⟩ upstream).requests,
        req.params.page = queryIntParam p 1 ∧
        req.params.pageSize = queryIntParam ps 10) ∧
    1 ≤ (searchNews ⟨some s, p, ps⟩ upstream).requests.length ∧
    (∀ req ∈ (searchNews ⟨some s, p, ps⟩ upstream).requests,
        req.params.page = queryIntParam p 1 ∧
        req.params.pageSize = queryIntParam ps 10) ∧
    jsParseInt "abc" = none ∧
    queryIntParam (some "abc") 1 = none := by
  have hq : jsFalsyQueryParam (some s) = false := by
    simp [jsFalsyQueryParam]
    exact hs
  have ht := getTrendingNews_requests ⟨none, p, ps⟩ upstream
  have hsr := searchNews_requests ⟨some s, p, ps⟩ upstream hq
  refine ⟨?_, ?_, ?_, ?_, by decide, by decide⟩
  · rw [ht]
    exact makeNewsRequest_calls_pos _ _ _ _ (by decide)
  · intro req hreq
    rw [ht] at hreq
    unfold makeNewsRequest at hreq
    have hfix := loopFuel_params_fixed "/top-headlines"
      (trendingParams ⟨none, p, ps⟩) upstream defaultRetries
      (defaultRetries + 1) 1 req hreq
    rw [hfix.2.1]
    exact ⟨rfl, rfl⟩
  · rw [hsr]
    exact makeNewsRequest_calls_pos _ _ _ _ (by decide)
  · intro req hreq
    rw [hsr] at hreq
    unfold makeNewsRequest at hreq
    have hfix := loopFuel_params_fixed "/everything"
      (searchParams ⟨some s, p, ps⟩) upstream defaultRetries
      (defaultRetries + 1) 1 req hreq
    rw [hfix.2.1]
    exact ⟨rfl, rfl⟩

/-- Witness for C10 at non-numeric `page`/`pageSize` strings. -/
theorem page_pageSize_forwarded_witness :
    1 ≤ (getTrendingNews ⟨none, some "abc", some "xyz"⟩
        (fun _ => AttemptOutcome.failure err429resp :
          Nat → AttemptOutcome Unit)).requests.length ∧
    (∀ req ∈ (getTrendingNews ⟨none, some "abc", some "xyz"⟩
        (fun _ => AttemptOutcome.failure err429resp :
          Nat → AttemptOutcome Unit)).requests,
        req.params.page = queryIntParam (some "abc") 1 ∧
        req.params.pageSize = queryIntParam (some "xyz") 10) ∧
    1 ≤ (searchNews ⟨some "climate", some "abc", some "xyz"⟩
        (fun _ => AttemptOutcome.failure err429resp :
          Nat → AttemptOutcome Unit)).requests.length ∧
    (∀ req ∈ (searchNews ⟨some "climate", some "abc", some "xyz"⟩
        (fun _ => AttemptOutcome.failure err429resp :
          Nat → AttemptOutcome Unit)).requests,
        req.params.page = queryIntParam (some "abc") 1 ∧
        req.params.pageSize = queryIntParam (some "xyz") 10) ∧
    jsParseInt "abc" = none ∧
    queryIntParam (some "abc") 1 = none :=
  page_pageSize_forwarded_unvalidated (some "abc") (some "xyz") "climate"
    (by decide) (fun _ => AttemptOutcome.failure err429resp)

end Brevity
